import Mathlib

/-!
Shallow embedding of the articulated-joints repository (two Python scripts,
`hinge_joint.py` and `saddle_joint.py`) built on the trimesh CSG engine.

Geometry is modelled as point-membership solids over rational 3-space:
a `Solid` is a decidable membership test `V3 → Bool`.  Primitives
(`trimesh.primitives.Sphere/Cylinder`, `trimesh.creation.box`) are modelled
as the exact solids they tessellate; boolean `difference` and
`trimesh.util.concatenate` are set difference and union of the point sets.
Rigid transforms (`trimesh.transformations` matrices, composed with `@` and
applied with `apply_transform` / `apply_translation`) are 3x3 linear parts
plus translation; rotations about a coordinate axis are parameterised by the
cosine/sine pair of the angle, so every construction stays computable over ℚ.
-/

structure V3 where
  x : ℚ
  y : ℚ
  z : ℚ
deriving DecidableEq

structure Mat3 where
  a11 : ℚ
  a12 : ℚ
  a13 : ℚ
  a21 : ℚ
  a22 : ℚ
  a23 : ℚ
  a31 : ℚ
  a32 : ℚ
  a33 : ℚ
deriving DecidableEq

def Mat3.apply (A : Mat3) (v : V3) : V3 :=
  ⟨A.a11 * v.x + A.a12 * v.y + A.a13 * v.z,
   A.a21 * v.x + A.a22 * v.y + A.a23 * v.z,
   A.a31 * v.x + A.a32 * v.y + A.a33 * v.z⟩

def Mat3.mul (A B : Mat3) : Mat3 :=
  ⟨A.a11 * B.a11 + A.a12 * B.a21 + A.a13 * B.a31,
   A.a11 * B.a12 + A.a12 * B.a22 + A.a13 * B.a32,
   A.a11 * B.a13 + A.a12 * B.a23 + A.a13 * B.a33,
   A.a21 * B.a11 + A.a22 * B.a21 + A.a23 * B.a31,
   A.a21 * B.a12 + A.a22 * B.a22 + A.a23 * B.a32,
   A.a21 * B.a13 + A.a22 * B.a23 + A.a23 * B.a33,
   A.a31 * B.a11 + A.a32 * B.a21 + A.a33 * B.a31,
   A.a31 * B.a12 + A.a32 * B.a22 + A.a33 * B.a32,
   A.a31 * B.a13 + A.a32 * B.a23 + A.a33 * B.a33⟩

def Mat3.transpose (A : Mat3) : Mat3 :=
  ⟨A.a11, A.a21, A.a31, A.a12, A.a22, A.a32, A.a13, A.a23, A.a33⟩

def Mat3.one : Mat3 := ⟨1, 0, 0, 0, 1, 0, 0, 0, 1⟩

/-- A 4x4 homogeneous rigid transform, stored as linear part + translation. -/
structure Tf where
  lin : Mat3
  tr : V3
deriving DecidableEq

def Tf.apply (A : Tf) (p : V3) : V3 :=
  ⟨(A.lin.apply p).x + A.tr.x,
   (A.lin.apply p).y + A.tr.y,
   (A.lin.apply p).z + A.tr.z⟩

/-- Matrix product `A @ B` of two homogeneous transforms. -/
def Tf.mul (A B : Tf) : Tf := ⟨A.lin.mul B.lin, A.apply B.tr⟩

def Tf.id : Tf := ⟨Mat3.one, ⟨0, 0, 0⟩⟩

/-- `trimesh.transformations.translation_matrix(offset)` (the `T` helper). -/
def Tf.translate (offset : V3) : Tf := ⟨Mat3.one, offset⟩

/-- `trimesh.transformations.rotation_matrix(angle, [1,0,0])`, the angle
represented by its cosine/sine pair `c, s`. -/
def Rx (c s : ℚ) : Tf := ⟨⟨1, 0, 0, 0, c, -s, 0, s, c⟩, ⟨0, 0, 0⟩⟩

/-- `trimesh.transformations.rotation_matrix(angle, [0,1,0])`, the angle
represented by its cosine/sine pair `c, s`. -/
def Ry (c s : ℚ) : Tf := ⟨⟨c, 0, s, 0, 1, 0, -s, 0, c⟩, ⟨0, 0, 0⟩⟩

/-- Inverse of a rigid transform: transpose of the rotation part, negated
rotated translation. -/
def Tf.invRigid (A : Tf) : Tf :=
  ⟨A.lin.transpose,
   ⟨-((A.lin.transpose.apply A.tr).x),
    -((A.lin.transpose.apply A.tr).y),
    -((A.lin.transpose.apply A.tr).z)⟩⟩

/-- A solid as a decidable point-membership test on rational 3-space. -/
def Solid : Type := V3 → Bool

/-- `trimesh.primitives.Sphere(radius=r)`: ball of radius `r` at the origin. -/
def sphereS (r : ℚ) : Solid := fun p =>
  decide (p.x ^ 2 + p.y ^ 2 + p.z ^ 2 ≤ r ^ 2)

/-- `trimesh.primitives.Cylinder(radius=r, height=h)`: axis along Z, centred
at the origin. -/
def cylinderS (r h : ℚ) : Solid := fun p =>
  decide (p.x ^ 2 + p.y ^ 2 ≤ r ^ 2) &&
  (decide (-(h / 2) ≤ p.z) && decide (p.z ≤ h / 2))

/-- `trimesh.creation.box([ex, ey, ez])`: axis-aligned box of the given
extents, centred at the origin. -/
def boxS (ex ey ez : ℚ) : Solid := fun p =>
  (decide (-(ex / 2) ≤ p.x) && decide (p.x ≤ ex / 2)) &&
  ((decide (-(ey / 2) ≤ p.y) && decide (p.y ≤ ey / 2)) &&
   (decide (-(ez / 2) ≤ p.z) && decide (p.z ≤ ez / 2)))

/-- `mesh.apply_transform(M)`: the image of the point set under `M`;
a point is in the image iff its preimage under `M` is in the solid. -/
def Solid.applyTf (tf : Tf) (s : Solid) : Solid := fun p =>
  s (tf.invRigid.apply p)

/-- `mesh.apply_translation(v)`. -/
def Solid.applyTranslate (v : V3) (s : Solid) : Solid :=
  Solid.applyTf (Tf.translate v) s

/-- `a.difference(b)`: boolean CSG difference of the point sets. -/
def Solid.difference (a b : Solid) : Solid := fun p => a p && !(b p)

/-- `trimesh.util.concatenate([a, b])`: the union of the two point sets. -/
def Solid.union (a b : Solid) : Solid := fun p => a p || b p

/-- A rotation DOF value: the cosine/sine pair of the joint angle. -/
structure RotP where
  c : ℚ
  s : ℚ
deriving DecidableEq

namespace hinge_joint

def barrel_radius : ℚ := 6

def barrel_length : ℚ := 22

def saddle_wall : ℚ := 3

def saddle_width : ℚ := 16

def clearance : ℚ := 2 / 5

def max_angle_deg : ℚ := 120

def connector_radius : ℚ := 5

def connector_length : ℚ := 18

/-- `rotation_matrix(np.pi / 2, [0, 1, 0])` used throughout the script. -/
def Ry90 : Tf := Ry 0 1

/-- The barrel cylinder, rotated so its axis is X. -/
def barrel : Solid := Solid.applyTf Ry90 (cylinderS barrel_radius barrel_length)

def barrel_connector : Solid :=
  Solid.applyTranslate ⟨0, 0, connector_length / 2⟩
    (cylinderS connector_radius connector_length)

def barrel_part : Solid := Solid.union barrel barrel_connector

def outer_radius : ℚ := barrel_radius + clearance + saddle_wall

def inner_radius : ℚ := barrel_radius + clearance

def outer : Solid := Solid.applyTf Ry90 (cylinderS outer_radius saddle_width)

def inner : Solid :=
  Solid.applyTf Ry90 (cylinderS inner_radius (saddle_width + 1))

/-- Cut box of extents `outer_radius * 3` translated to
`[0, -outer_radius * 1.5, 0]`. -/
def cut_box : Solid :=
  Solid.applyTranslate ⟨0, -(outer_radius * (3 / 2)), 0⟩
    (boxS (outer_radius * 3) (outer_radius * 3) (outer_radius * 3))

/-- `saddle = outer.difference(inner).difference(cut_box)`. -/
def saddle : Solid := (outer.difference inner).difference cut_box

def saddle_part : Solid := saddle

/-- `np.linspace(-max_angle_deg / 2, max_angle_deg / 2, 160)`. -/
def angles (i : ℕ) : ℚ := -(max_angle_deg / 2) + max_angle_deg * i / 159

/-- `self.angles[self.frame % len(self.angles)]` of `ElbowHingeAnimator.step`. -/
def angleAt (f : ℕ) : ℚ := angles (f % 160)

/-- One `ElbowHingeAnimator.step` call at frame counter `f`: the hinge angle
used for this frame, and the advanced frame counter. -/
def step (f : ℕ) : ℚ × ℕ := (angleAt f, f + 1)

end hinge_joint

namespace saddle_joint

def ball_radius : ℚ := 10

def stud_radius : ℚ := 3

def stud_length : ℚ := 20

def clearance : ℚ := 2 / 5

def socket_thickness : ℚ := 3

def hinge_radius : ℚ := 6

def hinge_length : ℚ := 22

def hinge_wall : ℚ := 3

def hinge_range_deg : ℚ := 120

def rail_radius : ℚ := 5

def rail_length : ℚ := 45

def carriage_length : ℚ := 18

def slider_clearance : ℚ := 2 / 5

/-- The `T(offset)` helper: `translation_matrix(offset)`. -/
def T (offset : V3) : Tf := Tf.translate offset

def ball : Solid := sphereS ball_radius

def stud : Solid :=
  Solid.applyTranslate ⟨0, 0, stud_length / 2 + ball_radius⟩
    (cylinderS stud_radius stud_length)

def ball_part : Solid := Solid.union ball stud

def socket_outer_radius : ℚ := ball_radius + clearance + socket_thickness

def socket_inner_radius : ℚ := ball_radius + clearance

def socket_outer : Solid := sphereS socket_outer_radius

def socket_inner : Solid := sphereS socket_inner_radius

/-- `trimesh.creation.box([100, 100, 100])` translated to `[0, 0, ball_radius]`. -/
def socket_cut : Solid :=
  Solid.applyTranslate ⟨0, 0, ball_radius⟩ (boxS 100 100 100)

/-- `socket = outer.difference(inner).difference(cut)`. -/
def socket : Solid := (socket_outer.difference socket_inner).difference socket_cut

def Ry90 : Tf := Ry 0 1

def barrel : Solid := Solid.applyTf Ry90 (cylinderS hinge_radius hinge_length)

def hinge_connector : Solid :=
  Solid.applyTranslate ⟨0, 0, stud_length / 2⟩ (cylinderS stud_radius stud_length)

def hinge_moving : Solid := Solid.union barrel hinge_connector

def hinge_outer_radius : ℚ := hinge_radius + slider_clearance + hinge_wall

def hinge_inner_radius : ℚ := hinge_radius + slider_clearance

def hinge_outer : Solid :=
  Solid.applyTf Ry90 (cylinderS hinge_outer_radius hinge_length)

def hinge_inner : Solid :=
  Solid.applyTf Ry90 (cylinderS hinge_inner_radius (hinge_length + 1))

/-- `trimesh.creation.box([100, 100, 100])` translated to `[0, -50, 0]`. -/
def hinge_cut : Solid :=
  Solid.applyTranslate ⟨0, -50, 0⟩ (boxS 100 100 100)

/-- `hinge_fixed = outer.difference(inner).difference(cut)`. -/
def hinge_fixed : Solid := (hinge_outer.difference hinge_inner).difference hinge_cut

def rail : Solid :=
  Solid.applyTranslate ⟨0, 0, rail_length / 2⟩ (cylinderS rail_radius rail_length)

/-- Radius of the carriage collar's outer cylinder, `rail_radius + 3`. -/
def carriage_outer_radius : ℚ := rail_radius + 3

/-- Radius of the carriage collar's inner cylinder,
`rail_radius + slider_clearance`. -/
def carriage_inner_radius : ℚ := rail_radius + slider_clearance

def carriage_outer : Solid :=
  Solid.applyTranslate ⟨0, 0, carriage_length / 2⟩
    (cylinderS carriage_outer_radius carriage_length)

def carriage_inner : Solid :=
  Solid.applyTranslate ⟨0, 0, (carriage_length + 1) / 2⟩
    (cylinderS carriage_inner_radius (carriage_length + 1))

/-- `carriage = outer.difference(inner)` (no cradle cut for the slider). -/
def carriage : Solid := carriage_outer.difference carriage_inner

/-- `BallJoint.child_frame = T([0, 0, ball_radius + stud_length])`. -/
def BallJoint.child_frame : Tf := T ⟨0, 0, ball_radius + stud_length⟩

/-- `BallJoint.apply(ax, ay)` sets
`self.transform = R(ax, [1,0,0]) @ R(ay, [0,1,0])`; the angles are
represented by their cosine/sine pairs `a` and `b`. -/
def BallJoint.applyTf (a b : RotP) : Tf := Tf.mul (Rx a.c a.s) (Ry b.c b.s)

/-- `HingeJoint.apply(parent_tf, angle)` transforms the moving mesh by
`parent_tf @ R(angle, [1,0,0])`. -/
def HingeJoint.applyTf (parent : Tf) (h : RotP) : Tf := Tf.mul parent (Rx h.c h.s)

/-- `SliderJoint.apply(parent_tf, t)` transforms the carriage by
`parent_tf @ T([0, 0, t])` -- the offset `t` is used as passed in. -/
def SliderJoint.applyTf (parent : Tf) (t : ℚ) : Tf := Tf.mul parent (T ⟨0, 0, t⟩)

/-- `angles = np.linspace(-30, 30, 120)`. -/
def angles_seq (i : ℕ) : ℚ := -30 + 60 * i / 119

/-- `hinge_angles = np.linspace(-hinge_range_deg / 2, hinge_range_deg / 2, 120)`. -/
def hinge_angles (i : ℕ) : ℚ :=
  -(hinge_range_deg / 2) + hinge_range_deg * i / 119

/-- `slide_vals = np.linspace(0, rail_length - carriage_length, 120)`. -/
def slide_vals (i : ℕ) : ℚ := (rail_length - carriage_length) * i / 119

/-- `ax = angles[frame % len(angles)]` in `animate`. -/
def ax_deg (frame : ℕ) : ℚ := angles_seq (frame % 120)

/-- `ay = angles[(frame * 2) % len(angles)]` in `animate`. -/
def ay_deg (frame : ℕ) : ℚ := angles_seq ((frame * 2) % 120)

/-- `hinge_angle = hinge_angles[frame % len(hinge_angles)]` in `animate`. -/
def hinge_angle_deg (frame : ℕ) : ℚ := hinge_angles (frame % 120)

/-- `slide = slide_vals[frame % len(slide_vals)]` in `animate`. -/
def slide (frame : ℕ) : ℚ := slide_vals (frame % 120)

/-- The ball joint's world transform for one `animate` frame, with the two
ball angles given as cosine/sine pairs `a` (about X) and `b` (about Y). -/
def ballTf (a b : RotP) : Tf := BallJoint.applyTf a b

/-- `hinge_parent_tf = ball_joint.transform @ ball_joint.child_frame`. -/
def hinge_parent_tf (a b : RotP) : Tf :=
  Tf.mul (ballTf a b) BallJoint.child_frame

/-- The transform applied to the hinge's moving mesh by
`hinge_joint.apply(hinge_parent_tf, hinge_angle)`. -/
def hingeMovingTf (a b h : RotP) : Tf :=
  HingeJoint.applyTf (hinge_parent_tf a b) h

/-- `slider_parent_tf = hinge_parent_tf @ R(hinge_angle, [1,0,0])`. -/
def slider_parent_tf (a b h : RotP) : Tf :=
  Tf.mul (hinge_parent_tf a b) (Rx h.c h.s)

/-- The transform applied to the carriage by
`slider_joint.apply(slider_parent_tf, slide)`. -/
def carriageTf (a b h : RotP) (t : ℚ) : Tf :=
  SliderJoint.applyTf (slider_parent_tf a b h) t

/-- The posed ball mesh: the rest-pose template re-transformed each frame. -/
def ballPosed (a b : RotP) : Solid := Solid.applyTf (ballTf a b) ball_part

/-- World position of the hinge joint (origin of its moving frame). -/
def hingePos (a b h : RotP) : V3 := (hingeMovingTf a b h).apply ⟨0, 0, 0⟩

/-- World position of the slider carriage (origin of its posed frame). -/
def carriagePos (a b h : RotP) (t : ℚ) : V3 :=
  (carriageTf a b h t).apply ⟨0, 0, 0⟩

end saddle_joint

/-- Applying a product of transforms applies the right factor first. -/
theorem Tf.mul_apply (A B : Tf) (p : V3) :
    (Tf.mul A B).apply p = A.apply (B.apply p) := by
  simp only [Tf.mul, Tf.apply, Mat3.mul, Mat3.apply, V3.mk.injEq]
  refine ⟨by ring, by ring, by ring⟩

/-- Closed form of the hinge joint's world position in the chain script. -/
theorem saddle_joint.hingePos_eq (a b h : RotP) :
    saddle_joint.hingePos a b h =
      ⟨30 * b.s, -(30 * a.s * b.c), 30 * a.c * b.c⟩ := by
  simp only [saddle_joint.hingePos, saddle_joint.hingeMovingTf,
    saddle_joint.hinge_parent_tf, saddle_joint.ballTf,
    saddle_joint.BallJoint.applyTf, saddle_joint.BallJoint.child_frame,
    saddle_joint.HingeJoint.applyTf, saddle_joint.T, saddle_joint.ball_radius,
    saddle_joint.stud_length, Tf.mul, Tf.apply, Tf.translate, Rx, Ry,
    Mat3.mul, Mat3.apply, Mat3.one, V3.mk.injEq]
  refine ⟨by ring, by ring, by ring⟩

/-- Closed form of the slider carriage's world position in the chain script. -/
theorem saddle_joint.carriagePos_eq (a b h : RotP) (t : ℚ) :
    saddle_joint.carriagePos a b h t =
      ⟨b.s * (30 + h.c * t),
       a.c * (-(h.s * t)) - a.s * (b.c * (30 + h.c * t)),
       a.s * (-(h.s * t)) + a.c * (b.c * (30 + h.c * t))⟩ := by
  simp only [saddle_joint.carriagePos, saddle_joint.carriageTf,
    saddle_joint.SliderJoint.applyTf, saddle_joint.slider_parent_tf,
    saddle_joint.hinge_parent_tf, saddle_joint.ballTf,
    saddle_joint.BallJoint.applyTf, saddle_joint.BallJoint.child_frame,
    saddle_joint.T, saddle_joint.ball_radius, saddle_joint.stud_length,
    Tf.mul, Tf.apply, Tf.translate, Rx, Ry, Mat3.mul, Mat3.apply, Mat3.one,
    V3.mk.injEq]
  refine ⟨by ring, by ring, by ring⟩

/-- C1: the ball-socket boolean difference yields an empty solid
(`socket = (outer − inner) − cut` with the cut box containing the whole
shell), yet the construction performs no emptiness check, signals no
`GeometryConstructionError`, and the empty part is silently kept: the
shell before the cut is non-empty, and the final socket contains no point
at all. -/
theorem socket_difference_empty_silently_kept :
    (saddle_joint.socket_outer.difference saddle_joint.socket_inner)
      ⟨0, 0, 12⟩ = true ∧
    ∀ p : V3, saddle_joint.socket p = false := by
  constructor
  · norm_num [saddle_joint.socket_outer, saddle_joint.socket_inner,
      saddle_joint.socket_outer_radius, saddle_joint.socket_inner_radius,
      saddle_joint.ball_radius, saddle_joint.clearance,
      saddle_joint.socket_thickness, Solid.difference, sphereS]
  · intro p
    simp only [saddle_joint.socket, saddle_joint.socket_outer,
      saddle_joint.socket_inner, saddle_joint.socket_cut,
      saddle_joint.socket_outer_radius, saddle_joint.socket_inner_radius,
      saddle_joint.ball_radius, saddle_joint.clearance,
      saddle_joint.socket_thickness, Solid.difference, Solid.applyTranslate,
      Solid.applyTf, Tf.invRigid, Tf.translate, Tf.apply, Mat3.apply,
      Mat3.transpose, Mat3.one, sphereS, boxS, Bool.and_eq_false_iff,
      Bool.and_eq_true, Bool.not_eq_false', Bool.not_eq_true',
      decide_eq_true_eq, decide_eq_false_iff_not, one_mul, zero_mul, mul_zero,
      mul_one, add_zero, zero_add, neg_zero, neg_neg]
    by_cases hout : p.x ^ 2 + p.y ^ 2 + p.z ^ 2 ≤ (10 + 2 / 5 + 3 : ℚ) ^ 2
    · right
      refine ⟨⟨?_, ?_⟩, ⟨?_, ?_⟩, ?_, ?_⟩ <;>
        nlinarith [sq_nonneg p.x, sq_nonneg p.y, sq_nonneg p.z,
          sq_nonneg (p.x + 50), sq_nonneg (p.x - 50), sq_nonneg (p.y + 50),
          sq_nonneg (p.y - 50), sq_nonneg (p.z + 40), sq_nonneg (p.z - 60)]
    · left
      left
      exact hout

/-- C2: the hinge saddle's cut box does remove exactly the lower (y ≤ 0)
half-space, with the upper half retained non-empty; but the ball socket's
cut box does not remove only the top half-space: even the point
`(0, 0, -12)` of the intended lower retained region is absent (the whole
shell is cut away). -/
theorem cradle_cut_halfspace :
    (∀ p : V3, p.y ≤ 0 → hinge_joint.saddle p = false) ∧
    hinge_joint.saddle ⟨0, 9, 0⟩ = true ∧
    saddle_joint.socket ⟨0, 0, -12⟩ = false := by
  refine ⟨?_, ?_, ?_⟩
  · intro p hy
    simp only [hinge_joint.saddle, hinge_joint.outer, hinge_joint.inner,
      hinge_joint.cut_box, hinge_joint.outer_radius, hinge_joint.inner_radius,
      hinge_joint.barrel_radius, hinge_joint.clearance, hinge_joint.saddle_wall,
      hinge_joint.saddle_width, hinge_joint.Ry90, Ry, Solid.difference,
      Solid.applyTranslate, Solid.applyTf, Tf.invRigid, Tf.translate, Tf.apply,
      Mat3.apply, Mat3.transpose, Mat3.one, cylinderS, boxS,
      Bool.and_eq_false_iff, Bool.and_eq_true, Bool.not_eq_false',
      Bool.not_eq_true', decide_eq_true_eq, decide_eq_false_iff_not,
      one_mul, zero_mul, mul_zero, mul_one, add_zero, zero_add, neg_zero,
      neg_neg]
    by_cases houter : ((-1 * p.z) ^ 2 + p.y ^ 2 ≤ (6 + 2 / 5 + 3 : ℚ) ^ 2) ∧
        (-(16 / 2 : ℚ) ≤ p.x) ∧ (p.x ≤ (16 : ℚ) / 2)
    · obtain ⟨h1, h2, h3⟩ := houter
      right
      refine ⟨⟨by linarith, by linarith⟩,
        ⟨by nlinarith [sq_nonneg p.z, sq_nonneg (p.y + 47 / 5)], by linarith⟩,
        by nlinarith [sq_nonneg p.y, sq_nonneg (p.z + 47 / 5)],
        by nlinarith [sq_nonneg p.y, sq_nonneg (p.z - 47 / 5)]⟩
    · left
      left
      tauto
  · norm_num [hinge_joint.saddle, hinge_joint.outer, hinge_joint.inner,
      hinge_joint.cut_box, hinge_joint.outer_radius, hinge_joint.inner_radius,
      hinge_joint.barrel_radius, hinge_joint.clearance, hinge_joint.saddle_wall,
      hinge_joint.saddle_width, hinge_joint.Ry90, Ry, Solid.difference,
      Solid.applyTranslate, Solid.applyTf, Tf.invRigid, Tf.translate, Tf.apply,
      Mat3.apply, Mat3.transpose, Mat3.one, cylinderS, boxS]
  · norm_num [saddle_joint.socket, saddle_joint.socket_outer,
      saddle_joint.socket_inner, saddle_joint.socket_cut,
      saddle_joint.socket_outer_radius, saddle_joint.socket_inner_radius,
      saddle_joint.ball_radius, saddle_joint.clearance,
      saddle_joint.socket_thickness, Solid.difference, Solid.applyTranslate,
      Solid.applyTf, Tf.invRigid, Tf.translate, Tf.apply, Mat3.apply,
      Mat3.transpose, Mat3.one, sphereS, boxS]

/-- Witness for C2 at the concrete removed-half-space point `(0, -9, 0)`. -/
theorem cradle_cut_halfspace_witness :
    ((⟨0, -9, 0⟩ : V3).y ≤ 0 ∧ hinge_joint.saddle ⟨0, -9, 0⟩ = false) ∧
    hinge_joint.saddle ⟨0, 9, 0⟩ = true :=
  ⟨⟨by norm_num, cradle_cut_halfspace.1 ⟨0, -9, 0⟩ (by norm_num)⟩,
   cradle_cut_halfspace.2.1⟩

/-- C3: for every shell construction that has declared clearance and wall
constants (the hinge saddle of `hinge_joint.py`, the ball socket and the
chain script's hinge shell of `saddle_joint.py`), the inner radius exceeds
the male envelope radius by exactly the clearance and the outer radius
exceeds the inner radius by exactly the wall thickness; in particular the
hinge with barrel_radius 6.0, clearance 0.4, saddle_wall 3.0 yields
inner_radius 6.4 and outer_radius 9.4. -/
theorem shell_radius_arithmetic :
    hinge_joint.inner_radius - hinge_joint.barrel_radius =
      hinge_joint.clearance ∧
    hinge_joint.outer_radius - hinge_joint.inner_radius =
      hinge_joint.saddle_wall ∧
    hinge_joint.inner_radius = 6.4 ∧ hinge_joint.outer_radius = 9.4 ∧
    saddle_joint.socket_inner_radius - saddle_joint.ball_radius =
      saddle_joint.clearance ∧
    saddle_joint.socket_outer_radius - saddle_joint.socket_inner_radius =
      saddle_joint.socket_thickness ∧
    saddle_joint.hinge_inner_radius - saddle_joint.hinge_radius =
      saddle_joint.slider_clearance ∧
    saddle_joint.hinge_outer_radius - saddle_joint.hinge_inner_radius =
      saddle_joint.hinge_wall := by
  norm_num [hinge_joint.inner_radius, hinge_joint.outer_radius,
    hinge_joint.barrel_radius, hinge_joint.clearance, hinge_joint.saddle_wall,
    saddle_joint.socket_inner_radius, saddle_joint.socket_outer_radius,
    saddle_joint.ball_radius, saddle_joint.clearance,
    saddle_joint.socket_thickness, saddle_joint.hinge_inner_radius,
    saddle_joint.hinge_outer_radius, saddle_joint.hinge_radius,
    saddle_joint.slider_clearance, saddle_joint.hinge_wall]

/-- Counterexample for C4: at offset `t = 100`, far outside
`[0, rail_length - carriage_length] = [0, 27]`, the slider pose translates
the carriage by exactly 100 along Z -- the value is applied verbatim, not
clamped to 27. -/
theorem slider_offset_not_clamped :
    (saddle_joint.SliderJoint.applyTf Tf.id 100).apply ⟨0, 0, 0⟩ =
      ⟨0, 0, 100⟩ ∧
    ¬ ((100 : ℚ) ≤ saddle_joint.rail_length - saddle_joint.carriage_length) ∧
    (saddle_joint.SliderJoint.applyTf Tf.id 100).apply ⟨0, 0, 0⟩ ≠
      ⟨0, 0, saddle_joint.rail_length - saddle_joint.carriage_length⟩ := by
  norm_num [saddle_joint.SliderJoint.applyTf, saddle_joint.T,
    saddle_joint.rail_length, saddle_joint.carriage_length, Tf.mul, Tf.apply,
    Tf.id, Tf.translate, Mat3.mul, Mat3.apply, Mat3.one, V3.mk.injEq]

/-- C4 (amended): the slider pose applies the offset `t` verbatim -- the
carriage is translated along the rail axis by exactly `t`, with no clamping
and no rejection -- while the animation driver's `slide_vals` sequence only
ever generates offsets inside `[0, rail_length - carriage_length]`. -/
theorem slider_offset_verbatim_driver_in_range :
    (∀ parent : Tf, ∀ t : ℚ, saddle_joint.SliderJoint.applyTf parent t =
      Tf.mul parent (saddle_joint.T ⟨0, 0, t⟩)) ∧
    (∀ t : ℚ, (saddle_joint.SliderJoint.applyTf Tf.id t).apply ⟨0, 0, 0⟩ =
      ⟨0, 0, t⟩) ∧
    (∀ frame : ℕ, 0 ≤ saddle_joint.slide frame ∧
      saddle_joint.slide frame ≤
        saddle_joint.rail_length - saddle_joint.carriage_length) := by
  refine ⟨fun parent t => rfl, ?_, ?_⟩
  · intro t
    simp only [saddle_joint.SliderJoint.applyTf, saddle_joint.T, Tf.mul,
      Tf.apply, Tf.id, Tf.translate, Mat3.mul, Mat3.apply, Mat3.one,
      V3.mk.injEq]
    refine ⟨by ring, by ring, by ring⟩
  · intro frame
    have hlt : frame % 120 < 120 := Nat.mod_lt _ (by norm_num)
    have hle : ((frame % 120 : ℕ) : ℚ) ≤ 119 := by
      exact_mod_cast Nat.le_of_lt_succ hlt
    have hge : (0 : ℚ) ≤ ((frame % 120 : ℕ) : ℚ) := Nat.cast_nonneg _
    simp only [saddle_joint.slide, saddle_joint.slide_vals,
      saddle_joint.rail_length, saddle_joint.carriage_length]
    constructor
    · positivity
    · rw [div_le_iff₀ (by norm_num : (0 : ℚ) < 119)]
      nlinarith

/-- Counterexample for C5: the carriage collar's wall margin is
`(rail_radius + 3) - (rail_radius + slider_clearance) = 2.6`, which is NOT
strictly greater than the hinge wall (3.0) or the ball socket thickness
(3.0). -/
theorem carriage_wall_margin_not_greater :
    saddle_joint.carriage_outer_radius - saddle_joint.carriage_inner_radius =
      2.6 ∧
    saddle_joint.hinge_wall = 3 ∧ saddle_joint.socket_thickness = 3 ∧
    ¬ (saddle_joint.carriage_outer_radius -
        saddle_joint.carriage_inner_radius > saddle_joint.hinge_wall) ∧
    ¬ (saddle_joint.carriage_outer_radius -
        saddle_joint.carriage_inner_radius > saddle_joint.socket_thickness) := by
  norm_num [saddle_joint.carriage_outer_radius,
    saddle_joint.carriage_inner_radius, saddle_joint.rail_radius,
    saddle_joint.slider_clearance, saddle_joint.hinge_wall,
    saddle_joint.socket_thickness]

/-- C5 (amended): the slider carriage shell is sized with its own radial
clearance constant (`slider_clearance`) and a strictly SMALLER wall margin
(2.6) than the wall thicknesses of the hinge and ball shells (3.0 each). -/
theorem carriage_wall_margin_smaller :
    saddle_joint.carriage_inner_radius =
      saddle_joint.rail_radius + saddle_joint.slider_clearance ∧
    saddle_joint.carriage_outer_radius - saddle_joint.carriage_inner_radius <
      saddle_joint.hinge_wall ∧
    saddle_joint.carriage_outer_radius - saddle_joint.carriage_inner_radius <
      saddle_joint.socket_thickness := by
  norm_num [saddle_joint.carriage_outer_radius,
    saddle_joint.carriage_inner_radius, saddle_joint.rail_radius,
    saddle_joint.slider_clearance, saddle_joint.hinge_wall,
    saddle_joint.socket_thickness]

/-- C6: for every frame, the parent transform handed to the hinge joint is
the ball joint's world transform composed on the right with the ball's
fixed child attachment frame, a pure translation of
`ball_radius + stud_length = 30` along Z, applied after the ball's own
rotation and before the hinge's rotation. -/
theorem ball_child_frame_handoff :
    saddle_joint.BallJoint.child_frame =
      Tf.translate ⟨0, 0, saddle_joint.ball_radius + saddle_joint.stud_length⟩ ∧
    saddle_joint.ball_radius + saddle_joint.stud_length = 30 ∧
    (∀ a b : RotP, saddle_joint.hinge_parent_tf a b =
      Tf.mul (saddle_joint.ballTf a b) (Tf.translate ⟨0, 0, 30⟩)) ∧
    (∀ a b h : RotP, saddle_joint.hingeMovingTf a b h =
      Tf.mul (saddle_joint.hinge_parent_tf a b) (Rx h.c h.s)) := by
  refine ⟨rfl, by norm_num [saddle_joint.ball_radius, saddle_joint.stud_length],
    ?_, fun a b h => rfl⟩
  intro a b
  have h30 : saddle_joint.BallJoint.child_frame = Tf.translate ⟨0, 0, 30⟩ := by
    norm_num [saddle_joint.BallJoint.child_frame, saddle_joint.T,
      saddle_joint.ball_radius, saddle_joint.stud_length]
  rw [saddle_joint.hinge_parent_tf, h30]

/-- C7: the ball joint's two rotational DOFs compose in the fixed order
`R(ax, X) @ R(ay, Y)` (so the Y rotation acts on points first), the posed
ball mesh is the rest-pose template transformed by exactly this product,
`(0, 0, 30)` is the stud tip (the topmost point of the rest-pose male
part), and with `ay = 0` the posed stud tip is `R(ax, X) · (0, 0, 30)`.
Angles are represented by their cosine/sine pairs. -/
theorem ball_dof_order_and_stud_tip :
    (∀ a b : RotP, saddle_joint.ballTf a b =
      Tf.mul (Rx a.c a.s) (Ry b.c b.s)) ∧
    (∀ a b : RotP, ∀ p : V3, (saddle_joint.ballTf a b).apply p =
      (Rx a.c a.s).apply ((Ry b.c b.s).apply p)) ∧
    (∀ a b : RotP, saddle_joint.ballPosed a b =
      Solid.applyTf (Tf.mul (Rx a.c a.s) (Ry b.c b.s)) saddle_joint.ball_part) ∧
    saddle_joint.ball_part ⟨0, 0, 30⟩ = true ∧
    (∀ p : V3, saddle_joint.ball_part p = true → p.z ≤ 30) ∧
    (∀ a : RotP, (saddle_joint.ballTf a ⟨1, 0⟩).apply ⟨0, 0, 30⟩ =
      (Rx a.c a.s).apply ⟨0, 0, 30⟩) := by
  refine ⟨fun a b => rfl, ?_, fun a b => rfl, ?_, ?_, ?_⟩
  · intro a b p
    exact Tf.mul_apply (Rx a.c a.s) (Ry b.c b.s) p
  · norm_num [saddle_joint.ball_part, saddle_joint.ball, saddle_joint.stud,
      saddle_joint.ball_radius, saddle_joint.stud_radius,
      saddle_joint.stud_length, Solid.union, Solid.applyTranslate,
      Solid.applyTf, Tf.invRigid, Tf.translate, Tf.apply, Mat3.apply,
      Mat3.transpose, Mat3.one, sphereS, cylinderS]
  · intro p hp
    simp only [saddle_joint.ball_part, saddle_joint.ball, saddle_joint.stud,
      saddle_joint.ball_radius, saddle_joint.stud_radius,
      saddle_joint.stud_length, Solid.union, Solid.applyTranslate,
      Solid.applyTf, Tf.invRigid, Tf.translate, Tf.apply, Mat3.apply,
      Mat3.transpose, Mat3.one, sphereS, cylinderS, Bool.or_eq_true,
      Bool.and_eq_true, decide_eq_true_eq, one_mul, zero_mul, mul_zero,
      mul_one, add_zero, zero_add, neg_zero, neg_neg] at hp
    rcases hp with hball | hstud
    · nlinarith [sq_nonneg p.x, sq_nonneg p.y, sq_nonneg (p.z - 10)]
    · obtain ⟨-, -, hz⟩ := hstud
      linarith
  · intro a
    simp only [saddle_joint.ballTf, saddle_joint.BallJoint.applyTf, Tf.mul,
      Tf.apply, Rx, Ry, Mat3.mul, Mat3.apply, V3.mk.injEq]
    refine ⟨by ring, by ring, by ring⟩

/-- Witness for C7 at the stud tip itself: the tip is in the rest-pose male
part and its height is the maximum, 30. -/
theorem ball_dof_order_and_stud_tip_witness :
    saddle_joint.ball_part ⟨0, 0, 30⟩ = true ∧ ((⟨0, 0, 30⟩ : V3)).z ≤ 30 :=
  ⟨ball_dof_order_and_stud_tip.2.2.2.1,
   ball_dof_order_and_stud_tip.2.2.2.2.1 ⟨0, 0, 30⟩
     ball_dof_order_and_stud_tip.2.2.2.1⟩

/-- C8: with the ball Y-angle, hinge angle and slider offset held fixed
(the Y-rotation not at ±90 degrees, which the driver's ±30-degree range
guarantees, and the offset inside the driver's range), perturbing only the
root ball joint's X-angle moves the world position of both downstream
joints: the hinge and the slider carriage. Angles are cosine/sine pairs,
so `a ≠ a'` is a genuine perturbation of the root angle. -/
theorem root_perturbation_shifts_descendants (a a' b h : RotP) (t : ℚ)
    (hne : a ≠ a') (hb : b.c ≠ 0) (hh : h.c ^ 2 + h.s ^ 2 = 1)
    (ht0 : 0 ≤ t)
    (ht1 : t ≤ saddle_joint.rail_length - saddle_joint.carriage_length) :
    saddle_joint.hingePos a b h ≠ saddle_joint.hingePos a' b h ∧
      saddle_joint.carriagePos a b h t ≠ saddle_joint.carriagePos a' b h t := by
  have hrl : saddle_joint.rail_length - saddle_joint.carriage_length = 27 := by
    norm_num [saddle_joint.rail_length, saddle_joint.carriage_length]
  rw [hrl] at ht1
  constructor
  · intro heq
    rw [saddle_joint.hingePos_eq, saddle_joint.hingePos_eq, V3.mk.injEq] at heq
    obtain ⟨-, h2, h3⟩ := heq
    have hdc : (a.c - a'.c) * b.c = 0 := by linear_combination h3 / 30
    have hds : (a.s - a'.s) * b.c = 0 := by linear_combination -h2 / 30
    have hc : a.c = a'.c := by
      rcases mul_eq_zero.mp hdc with h5 | h5
      · linarith
      · exact absurd h5 hb
    have hs : a.s = a'.s := by
      rcases mul_eq_zero.mp hds with h5 | h5
      · linarith
      · exact absurd h5 hb
    apply hne
    cases a
    cases a'
    simp only [RotP.mk.injEq]
    exact ⟨hc, hs⟩
  · intro heq
    rw [saddle_joint.carriagePos_eq, saddle_joint.carriagePos_eq,
      V3.mk.injEq] at heq
    obtain ⟨-, h2, h3⟩ := heq
    have hcub : -1 ≤ h.c := by nlinarith [sq_nonneg h.s, sq_nonneg (h.c + 1)]
    have hv : (0 : ℚ) < 30 + h.c * t := by nlinarith
    have hvne : b.c * (30 + h.c * t) ≠ 0 := mul_ne_zero hb (by linarith)
    have hpos : (0 : ℚ) < (-(h.s * t)) ^ 2 + (b.c * (30 + h.c * t)) ^ 2 := by
      have h6 : (0 : ℚ) < (b.c * (30 + h.c * t)) ^ 2 :=
        lt_of_le_of_ne (sq_nonneg _) (Ne.symm (pow_ne_zero 2 hvne))
      nlinarith [sq_nonneg (-(h.s * t))]
    have hdc : (a.c - a'.c) *
        ((-(h.s * t)) ^ 2 + (b.c * (30 + h.c * t)) ^ 2) = 0 := by
      linear_combination (-(h.s * t)) * h2 + (b.c * (30 + h.c * t)) * h3
    have hds : (a.s - a'.s) *
        ((-(h.s * t)) ^ 2 + (b.c * (30 + h.c * t)) ^ 2) = 0 := by
      linear_combination (-(h.s * t)) * h3 - (b.c * (30 + h.c * t)) * h2
    have hc : a.c = a'.c := by
      rcases mul_eq_zero.mp hdc with h5 | h5
      · linarith
      · exact absurd h5 (ne_of_gt hpos)
    have hs : a.s = a'.s := by
      rcases mul_eq_zero.mp hds with h5 | h5
      · linarith
      · exact absurd h5 (ne_of_gt hpos)
    apply hne
    cases a
    cases a'
    simp only [RotP.mk.injEq]
    exact ⟨hc, hs⟩

/-- Witness for C8: perturbing the root X-angle from 0 degrees to 90
degrees (cosine/sine pairs (1,0) and (0,1)) with the other DOFs at rest
moves both the hinge and the carriage world positions. -/
theorem root_perturbation_shifts_descendants_witness :
    ((⟨1, 0⟩ : RotP) ≠ ⟨0, 1⟩ ∧ ((⟨1, 0⟩ : RotP)).c ≠ 0 ∧
      ((⟨1, 0⟩ : RotP)).c ^ 2 + ((⟨1, 0⟩ : RotP)).s ^ 2 = 1 ∧
      (0 : ℚ) ≤ 0 ∧
      (0 : ℚ) ≤ saddle_joint.rail_length - saddle_joint.carriage_length) ∧
    (saddle_joint.hingePos ⟨1, 0⟩ ⟨1, 0⟩ ⟨1, 0⟩ ≠
        saddle_joint.hingePos ⟨0, 1⟩ ⟨1, 0⟩ ⟨1, 0⟩ ∧
      saddle_joint.carriagePos ⟨1, 0⟩ ⟨1, 0⟩ ⟨1, 0⟩ 0 ≠
        saddle_joint.carriagePos ⟨0, 1⟩ ⟨1, 0⟩ ⟨1, 0⟩ 0) :=
  ⟨⟨by norm_num [RotP.mk.injEq], by norm_num, by norm_num, le_refl 0,
    by norm_num [saddle_joint.rail_length, saddle_joint.carriage_length]⟩,
   root_perturbation_shifts_descendants ⟨1, 0⟩ ⟨0, 1⟩ ⟨1, 0⟩ ⟨1, 0⟩ 0
     (by norm_num [RotP.mk.injEq]) (by norm_num) (by norm_num) (le_refl 0)
     (by norm_num [saddle_joint.rail_length, saddle_joint.carriage_length])⟩

/-- C9: the elbow hinge animator looks its parameter up as
`angles[frame % 160]`, advances the frame counter by exactly 1 per step,
its 160-element sequence is evenly spaced spanning
`[-max_angle_deg/2, +max_angle_deg/2]`, and the parameter at frame 160
equals the frame-0 parameter exactly. -/
theorem elbow_animator_cycle :
    (∀ f : ℕ, hinge_joint.step f = (hinge_joint.angles (f % 160), f + 1)) ∧
    hinge_joint.angleAt 160 = hinge_joint.angleAt 0 ∧
    (∀ i : ℕ, hinge_joint.angles (i + 1) - hinge_joint.angles i =
      hinge_joint.max_angle_deg / 159) ∧
    hinge_joint.angles 0 = -(hinge_joint.max_angle_deg / 2) ∧
    hinge_joint.angles 159 = hinge_joint.max_angle_deg / 2 := by
  refine ⟨fun f => rfl, by norm_num [hinge_joint.angleAt], ?_, ?_, ?_⟩
  · intro i
    simp only [hinge_joint.angles, hinge_joint.max_angle_deg]
    push_cast
    ring
  · norm_num [hinge_joint.angles, hinge_joint.max_angle_deg]
  · norm_num [hinge_joint.angles, hinge_joint.max_angle_deg]

/-- C10: the hinge joint contributes no child attachment frame: the
slider's parent transform is exactly the hinge's world transform
`(ballTf · T(0,0,30)) · R(hinge_angle, X)`, with no offset between hinge
and slider; and the ball is posed from its own two rotations alone (its
pose takes no parent transform). -/
theorem hinge_contributes_no_child_frame :
    (∀ a b h : RotP, saddle_joint.slider_parent_tf a b h =
      saddle_joint.hingeMovingTf a b h) ∧
    (∀ a b h : RotP, saddle_joint.slider_parent_tf a b h =
      Tf.mul (Tf.mul (saddle_joint.ballTf a b) (Tf.translate ⟨0, 0, 30⟩))
        (Rx h.c h.s)) ∧
    (∀ a b : RotP, saddle_joint.ballTf a b =
      Tf.mul (Rx a.c a.s) (Ry b.c b.s)) := by
  refine ⟨fun a b h => rfl, ?_, fun a b => rfl⟩
  intro a b h
  have h30 : saddle_joint.BallJoint.child_frame = Tf.translate ⟨0, 0, 30⟩ := by
    norm_num [saddle_joint.BallJoint.child_frame, saddle_joint.T,
      saddle_joint.ball_radius, saddle_joint.stud_length]
  rw [saddle_joint.slider_parent_tf, saddle_joint.hinge_parent_tf, h30]
